import Mathlib

/-!
Verification of the project-build pipeline driver
(`src/compiler/crates/relay-compiler/src/build_project/mod.rs`).

The driver `build_project` sequences six compilation stages — schema
construction, IR construction, program construction, validation, transform
fan-out, artifact generation and artifact writing — wrapping each in a timing
span, attaching source context to validation-category errors, and printing a
one-line summary on full success.

The stage bodies (`build_schema`, `build_ir`, `validate`, `apply_transforms`,
`generate_artifacts`, `write_artifacts`, `Program::from_definitions`,
`ValidationError::with_sources`, `common::Timer`) live in sibling modules and
crates of the repository; the driver only calls them through their signatures.
They are therefore embedded as an abstract record of stage functions
(`StageFns`) over an abstract record of carrier types (`PipelineTypes`), and
the driver itself is translated line by line.  Effects (timer spans, the
summary `println!`) are embedded as an explicit event trace returned next to
the driver's `Result`.
-/

/-- The seven operations the driver invokes in sequence (program construction
included, as the driver wraps it in its own timing span). -/
inductive StageName where
  | buildSchema
  | buildIR
  | buildProgram
  | validate
  | applyTransforms
  | generateArtifacts
  | writeArtifacts
deriving DecidableEq, Repr

/-- Observable effects of the driver: timer-span starts and stops
(`common::Timer`), a stage body being run, and a printed line. -/
inductive Event where
  | timerStart (label : String)
  | stageRun (s : StageName)
  | timerStop (label : String)
  | printLine (line : String)
deriving DecidableEq, Repr

/-- The stage-name part of each timer label, as formatted by the driver
(`format!("build_schema {}", project_config.name)` and so on). -/
def stageLabel : StageName → String
  | .buildSchema => "build_schema"
  | .buildIR => "build_ir"
  | .buildProgram => "build_program"
  | .validate => "validate"
  | .applyTransforms => "apply_transforms"
  | .generateArtifacts => "generate_artifacts"
  | .writeArtifacts => "write_artifacts"

/-- `Timer::time(format!("<stage> {}", name), || body)` : the span starts,
the body runs, the span stops.  The explicit `Timer::start`/`stop` pair around
`generate_artifacts` produces the same three events. -/
def timed (s : StageName) (name : String) : List Event :=
  [.timerStart (stageLabel s ++ " " ++ name),
   .stageRun s,
   .timerStop (stageLabel s ++ " " ++ name)]

/-- Carrier types of the pipeline.  The driver is generic in all of them: it
never inspects a schema, program or artifact value, only threads them between
stages. -/
structure PipelineTypes where
  CompilerState : Type
  Config : Type
  ConfigProject : Type
  AstSets : Type
  Sources : Type
  Schema : Type
  IR : Type
  BaseFragmentNames : Type
  /-- `graphql_ir::ValidationError` with its abstract source reference. -/
  ValidationError : Type
  /-- A validation error after `with_sources` resolved its location. -/
  ResolvedValidationError : Type
  SchemaErr : Type
  GenErr : Type
  WriteErr : Type
  Artifacts : Type
  Definition : Type

/-- Modelled from the spec: `graphql_ir::Program` is not under `src/`; the
spec describes it as an immutable "collection of definitions" whose
`document_count` the summary line reports as "the cardinality of each target
Program's definitions". -/
structure Program (T : PipelineTypes) where
  definitions : List T.Definition

/-- Modelled from the spec: `Program::document_count` (not under `src/`)
reports the cardinality of the program's definitions. -/
def Program.document_count {T : PipelineTypes} (p : Program T) : Nat :=
  p.definitions.length

/-- The result of `build_ir::build_ir`, destructured by the driver. -/
structure BuildIRResult (T : PipelineTypes) where
  ir : T.IR
  base_fragment_names : T.BaseFragmentNames

/-- The target-program set produced by `apply_transforms`, with the three
fields the driver reads in its summary line. -/
structure Programs (T : PipelineTypes) where
  reader : Program T
  normalization : Program T
  operation_text : Program T

/-- Modelled from the spec: `crate::errors::BuildProjectError` is not under
`src/`.  The driver constructs `ValidationErrors` explicitly and propagates
artifact-generation and artifact-write failures with `?`; the spec's error
taxonomy (§7) additionally lists `SchemaBuildError`, included here so that
claims about it are statable. -/
inductive BuildProjectError (T : PipelineTypes) where
  | ValidationErrors (errors : List T.ResolvedValidationError)
  | SchemaBuildError (e : T.SchemaErr)
  | ArtifactGenerationError (e : T.GenErr)
  | ArtifactWriteError (e : T.WriteErr)

/-- The collaborator functions the driver calls, with the signatures its call
sites exhibit: `build_schema` returns a schema directly (the driver applies no
`?` to it), `build_ir` and `validate` return batches of unresolved validation
errors, `generate_artifacts` and `write_artifacts` return their own error
types, and `with_sources` resolves one error against the source text set. -/
structure StageFns (T : PipelineTypes) where
  project_name : T.ConfigProject → String
  build_schema : T.CompilerState → T.ConfigProject → T.Schema
  build_ir : T.ConfigProject → T.Schema → T.AstSets →
    Except (List T.ValidationError) (BuildIRResult T)
  from_definitions : T.Schema → T.IR → Program T
  validate : Program T → Except (List T.ValidationError) Unit
  apply_transforms : Program T → T.BaseFragmentNames → Programs T
  generate_artifacts : T.ConfigProject → Programs T →
    Except T.GenErr T.Artifacts
  write_artifacts : T.Config → T.ConfigProject → T.Artifacts →
    Except T.WriteErr Unit
  with_sources : T.ValidationError → T.Sources → T.ResolvedValidationError

/-- `add_error_sources`: wraps a stage result, mapping a batch of unresolved
validation errors to `BuildProjectError::ValidationErrors` with every error
resolved by `with_sources` against the source text set.  (`with_sources` is a
method of `graphql_ir::ValidationError`, here carried by `StageFns`.) -/
def add_error_sources {T : PipelineTypes} {α : Type} (S : StageFns T)
    (result : Except (List T.ValidationError) α) (sources : T.Sources) :
    Except (BuildProjectError T) α :=
  match result with
  | .ok v => .ok v
  | .error validation_errors =>
      .error (.ValidationErrors
        (validation_errors.map fun e => S.with_sources e sources))

/-- The summary line printed on full success:
`"[{}] documents: {} reader, {} normalization, {} operation"`. -/
def summaryLine {T : PipelineTypes} (name : String) (programs : Programs T) :
    String :=
  "[" ++ name ++ "] documents: " ++
    toString programs.reader.document_count ++ " reader, " ++
    toString programs.normalization.document_count ++ " normalization, " ++
    toString programs.operation_text.document_count ++ " operation"

/-- `build_project`: the pipeline driver, translated stage by stage from
`build_project/mod.rs`.  Returns the event trace next to the `Result`.
`build_schema`'s result is used directly (no `?` at its call site); `build_ir`
and `validate` go through `add_error_sources` and `?`; `generate_artifacts`
and `write_artifacts` propagate their errors with `?`.  On the
`generate_artifacts` error path the source early-returns before the explicit
`artifacts_timer.stop()`; the trailing stop event emitted there is modelled
from the spec: `common::Timer` is not under `src/`, and the spec requires
spans to "stop after [the stage] ends (including on the failure path for
stages that fail)". -/
def build_project {T : PipelineTypes} (S : StageFns T)
    (compiler_state : T.CompilerState) (config : T.Config)
    (project_config : T.ConfigProject) (ast_sets : T.AstSets)
    (sources : T.Sources) :
    List Event × Except (BuildProjectError T) Unit :=
  let name := S.project_name project_config
  -- Construct a schema instance including project specific extensions.
  let schema := S.build_schema compiler_state project_config
  let t1 := timed .buildSchema name
  -- Build a type aware IR.
  let t2 := timed .buildIR name
  match add_error_sources S (S.build_ir project_config schema ast_sets)
      sources with
  | .error e => (t1 ++ t2, .error e)
  | .ok ⟨ir, base_fragment_names⟩ =>
    -- Turn the IR into a base Program.
    let program := S.from_definitions schema ir
    let t3 := timed .buildProgram name
    -- Call validation rules that go beyond type checking.
    let t4 := timed .validate name
    match add_error_sources S (S.validate program) sources with
    | .error e => (t1 ++ t2 ++ t3 ++ t4, .error e)
    | .ok _ =>
      -- Apply various chains of transforms to create a set of output programs.
      let programs := S.apply_transforms program base_fragment_names
      let t5 := timed .applyTransforms name
      -- Generate code and persist text to produce output artifacts in memory.
      let t6 := timed .generateArtifacts name
      match S.generate_artifacts project_config programs with
      | .error e =>
          (t1 ++ t2 ++ t3 ++ t4 ++ t5 ++ t6, .error (.ArtifactGenerationError e))
      | .ok artifacts =>
        -- Write the generated artifacts to disk.
        let t7 := timed .writeArtifacts name
        match S.write_artifacts config project_config artifacts with
        | .error e =>
            (t1 ++ t2 ++ t3 ++ t4 ++ t5 ++ t6 ++ t7,
             .error (.ArtifactWriteError e))
        | .ok _ =>
            (t1 ++ t2 ++ t3 ++ t4 ++ t5 ++ t6 ++ t7 ++
               [.printLine (summaryLine name programs)],
             .ok ())

/-- The fixed total stage order of the pipeline. -/
def fullStageOrder : List StageName :=
  [.buildSchema, .buildIR, .buildProgram, .validate,
   .applyTransforms, .generateArtifacts, .writeArtifacts]

/-- The stages that actually ran, read off the event trace. -/
def stagesRun (t : List Event) : List StageName :=
  t.filterMap fun e =>
    match e with
    | .stageRun s => some s
    | _ => none

/-- The lines printed, read off the event trace. -/
def printedLines (t : List Event) : List String :=
  t.filterMap fun e =>
    match e with
    | .printLine l => some l
    | _ => none

section Helpers

variable {T : PipelineTypes} (S : StageFns T)
variable (compiler_state : T.CompilerState) (config : T.Config)
variable (project_config : T.ConfigProject) (ast_sets : T.AstSets)
variable (sources : T.Sources)

/-- Outcome characterization: IR construction fails. -/
theorem build_project_eq_of_ir_error
    (vs : List T.ValidationError)
    (h1 : S.build_ir project_config
        (S.build_schema compiler_state project_config) ast_sets = .error vs) :
    build_project S compiler_state config project_config ast_sets sources =
      (timed .buildSchema (S.project_name project_config) ++
         timed .buildIR (S.project_name project_config),
       .error (.ValidationErrors (vs.map fun e => S.with_sources e sources))) := by
  simp [build_project, add_error_sources, h1]

/-- Outcome characterization: IR succeeds, validation fails. -/
theorem build_project_eq_of_validate_error
    (ir : T.IR) (bfn : T.BaseFragmentNames) (vs : List T.ValidationError)
    (h1 : S.build_ir project_config
        (S.build_schema compiler_state project_config) ast_sets =
        .ok ⟨ir, bfn⟩)
    (h2 : S.validate (S.from_definitions
        (S.build_schema compiler_state project_config) ir) = .error vs) :
    build_project S compiler_state config project_config ast_sets sources =
      (timed .buildSchema (S.project_name project_config) ++
         (timed .buildIR (S.project_name project_config) ++
           (timed .buildProgram (S.project_name project_config) ++
             timed .validate (S.project_name project_config))),
       .error (.ValidationErrors (vs.map fun e => S.with_sources e sources))) := by
  simp [build_project, add_error_sources, h1, h2]

/-- Outcome characterization: generation fails. -/
theorem build_project_eq_of_generate_error
    (ir : T.IR) (bfn : T.BaseFragmentNames) (g : T.GenErr)
    (h1 : S.build_ir project_config
        (S.build_schema compiler_state project_config) ast_sets =
        .ok ⟨ir, bfn⟩)
    (h2 : S.validate (S.from_definitions
        (S.build_schema compiler_state project_config) ir) = .ok ())
    (h3 : S.generate_artifacts project_config
        (S.apply_transforms
          (S.from_definitions
            (S.build_schema compiler_state project_config) ir) bfn) =
        .error g) :
    build_project S compiler_state config project_config ast_sets sources =
      (timed .buildSchema (S.project_name project_config) ++
         (timed .buildIR (S.project_name project_config) ++
           (timed .buildProgram (S.project_name project_config) ++
             (timed .validate (S.project_name project_config) ++
               (timed .applyTransforms (S.project_name project_config) ++
                 timed .generateArtifacts (S.project_name project_config))))),
       .error (.ArtifactGenerationError g)) := by
  simp [build_project, add_error_sources, h1, h2, h3]

/-- Outcome characterization: writing fails. -/
theorem build_project_eq_of_write_error
    (ir : T.IR) (bfn : T.BaseFragmentNames) (a : T.Artifacts) (w : T.WriteErr)
    (h1 : S.build_ir project_config
        (S.build_schema compiler_state project_config) ast_sets =
        .ok ⟨ir, bfn⟩)
    (h2 : S.validate (S.from_definitions
        (S.build_schema compiler_state project_config) ir) = .ok ())
    (h3 : S.generate_artifacts project_config
        (S.apply_transforms
          (S.from_definitions
            (S.build_schema compiler_state project_config) ir) bfn) =
        .ok a)
    (h4 : S.write_artifacts config project_config a = .error w) :
    build_project S compiler_state config project_config ast_sets sources =
      (timed .buildSchema (S.project_name project_config) ++
         (timed .buildIR (S.project_name project_config) ++
           (timed .buildProgram (S.project_name project_config) ++
             (timed .validate (S.project_name project_config) ++
               (timed .applyTransforms (S.project_name project_config) ++
                 (timed .generateArtifacts (S.project_name project_config) ++
                   timed .writeArtifacts (S.project_name project_config)))))),
       .error (.ArtifactWriteError w)) := by
  simp [build_project, add_error_sources, h1, h2, h3, h4]

/-- Outcome characterization: full success. -/
theorem build_project_eq_of_success
    (ir : T.IR) (bfn : T.BaseFragmentNames) (a : T.Artifacts)
    (h1 : S.build_ir project_config
        (S.build_schema compiler_state project_config) ast_sets =
        .ok ⟨ir, bfn⟩)
    (h2 : S.validate (S.from_definitions
        (S.build_schema compiler_state project_config) ir) = .ok ())
    (h3 : S.generate_artifacts project_config
        (S.apply_transforms
          (S.from_definitions
            (S.build_schema compiler_state project_config) ir) bfn) =
        .ok a)
    (h4 : S.write_artifacts config project_config a = .ok ()) :
    build_project S compiler_state config project_config ast_sets sources =
      (timed .buildSchema (S.project_name project_config) ++
         (timed .buildIR (S.project_name project_config) ++
           (timed .buildProgram (S.project_name project_config) ++
             (timed .validate (S.project_name project_config) ++
               (timed .applyTransforms (S.project_name project_config) ++
                 (timed .generateArtifacts (S.project_name project_config) ++
                   (timed .writeArtifacts (S.project_name project_config) ++
                     [.printLine (summaryLine (S.project_name project_config)
                       (S.apply_transforms
                         (S.from_definitions
                           (S.build_schema compiler_state project_config) ir)
                         bfn))])))))),
       .ok ()) := by
  simp [build_project, add_error_sources, h1, h2, h3, h4]

end Helpers

/-- Every run of the driver falls into one of five outcomes, determined by
the stage functions' results (schema and program construction and the
transform fan-out are infallible at their call sites). -/
theorem build_project_cases {T : PipelineTypes} (S : StageFns T)
    (compiler_state : T.CompilerState) (config : T.Config)
    (project_config : T.ConfigProject) (ast_sets : T.AstSets) :
    (∃ vs, S.build_ir project_config
        (S.build_schema compiler_state project_config) ast_sets = .error vs) ∨
    (∃ ir bfn vs,
      S.build_ir project_config
        (S.build_schema compiler_state project_config) ast_sets =
        .ok ⟨ir, bfn⟩ ∧
      S.validate (S.from_definitions
        (S.build_schema compiler_state project_config) ir) = .error vs) ∨
    (∃ ir bfn g,
      S.build_ir project_config
        (S.build_schema compiler_state project_config) ast_sets =
        .ok ⟨ir, bfn⟩ ∧
      S.validate (S.from_definitions
        (S.build_schema compiler_state project_config) ir) = .ok () ∧
      S.generate_artifacts project_config
        (S.apply_transforms
          (S.from_definitions
            (S.build_schema compiler_state project_config) ir) bfn) =
        .error g) ∨
    (∃ ir bfn a w,
      S.build_ir project_config
        (S.build_schema compiler_state project_config) ast_sets =
        .ok ⟨ir, bfn⟩ ∧
      S.validate (S.from_definitions
        (S.build_schema compiler_state project_config) ir) = .ok () ∧
      S.generate_artifacts project_config
        (S.apply_transforms
          (S.from_definitions
            (S.build_schema compiler_state project_config) ir) bfn) =
        .ok a ∧
      S.write_artifacts config project_config a = .error w) ∨
    (∃ ir bfn a,
      S.build_ir project_config
        (S.build_schema compiler_state project_config) ast_sets =
        .ok ⟨ir, bfn⟩ ∧
      S.validate (S.from_definitions
        (S.build_schema compiler_state project_config) ir) = .ok () ∧
      S.generate_artifacts project_config
        (S.apply_transforms
          (S.from_definitions
            (S.build_schema compiler_state project_config) ir) bfn) =
        .ok a ∧
      S.write_artifacts config project_config a = .ok ()) := by
  cases h1 : S.build_ir project_config
      (S.build_schema compiler_state project_config) ast_sets with
  | error vs => exact Or.inl ⟨vs, rfl⟩
  | ok r =>
    obtain ⟨ir, bfn⟩ := r
    cases h2 : S.validate (S.from_definitions
        (S.build_schema compiler_state project_config) ir) with
    | error vs => exact Or.inr (Or.inl ⟨ir, bfn, vs, rfl, h2⟩)
    | ok u =>
      cases u
      cases h3 : S.generate_artifacts project_config
          (S.apply_transforms
            (S.from_definitions
              (S.build_schema compiler_state project_config) ir) bfn) with
      | error g => exact Or.inr (Or.inr (Or.inl ⟨ir, bfn, g, rfl, h2, h3⟩))
      | ok a =>
        cases h4 : S.write_artifacts config project_config a with
        | error w =>
            exact Or.inr (Or.inr (Or.inr (Or.inl ⟨ir, bfn, a, w, rfl, h2, h3, h4⟩)))
        | ok u =>
            cases u
            exact Or.inr (Or.inr (Or.inr (Or.inr ⟨ir, bfn, a, rfl, h2, h3, h4⟩)))

/-- Reading stages off a concatenated trace. -/
theorem stagesRun_append (a b : List Event) :
    stagesRun (a ++ b) = stagesRun a ++ stagesRun b := by
  simp [stagesRun]

/-- A `timed` block runs exactly its own stage. -/
theorem stagesRun_timed (s : StageName) (name : String) :
    stagesRun (timed s name) = [s] := rfl

/-- A trace wraps its stages in spans when every stage that ran appears with
its own timer start immediately before it and its timer stop immediately
after it. -/
def spansWrapStages (t : List Event) (name : String) : Prop :=
  ∀ s ∈ stagesRun t, ∃ l r, t = l ++ (timed s name ++ r)

/-- A single `timed` block wraps its stage. -/
theorem spansWrapStages_timed (s : StageName) (name : String) :
    spansWrapStages (timed s name) name := by
  intro s' hs'
  rw [stagesRun_timed] at hs'
  rw [List.mem_singleton] at hs'
  subst hs'
  exact ⟨[], [], by simp⟩

/-- Wrapping is preserved by concatenating traces. -/
theorem spansWrapStages_append {a b : List Event} {name : String}
    (ha : spansWrapStages a name) (hb : spansWrapStages b name) :
    spansWrapStages (a ++ b) name := by
  intro s hs
  rw [stagesRun_append, List.mem_append] at hs
  cases hs with
  | inl h =>
      obtain ⟨l, r, hl⟩ := ha s h
      exact ⟨l, r ++ b, by rw [hl]; simp⟩
  | inr h =>
      obtain ⟨l, r, hl⟩ := hb s h
      exact ⟨a ++ l, r, by rw [hl]; simp⟩

/-- A printed line runs no stage, so it wraps vacuously. -/
theorem spansWrapStages_printLine (x : String) (name : String) :
    spansWrapStages [Event.printLine x] name := by
  intro s hs
  simp [stagesRun] at hs

/-- The category of a driver outcome: success, or which error variant the
caller received. -/
inductive FailureKind where
  | validation
  | schemaBuild
  | artifactGeneration
  | artifactWrite
deriving DecidableEq, Repr

/-- Classifies a driver outcome by its error variant. -/
def outcomeKind {T : PipelineTypes} :
    Except (BuildProjectError T) Unit → Option FailureKind
  | .ok _ => none
  | .error (.ValidationErrors _) => some .validation
  | .error (.SchemaBuildError _) => some .schemaBuild
  | .error (.ArtifactGenerationError _) => some .artifactGeneration
  | .error (.ArtifactWriteError _) => some .artifactWrite

/-- A small concrete instantiation of the carrier types, used to run the
driver on concrete inputs. -/
@[reducible] def NatTypes : PipelineTypes where
  CompilerState := Unit
  Config := Unit
  ConfigProject := Unit
  AstSets := Unit
  Sources := Nat
  Schema := Unit
  IR := Nat
  BaseFragmentNames := Nat
  ValidationError := Nat
  ResolvedValidationError := Nat
  SchemaErr := Unit
  GenErr := Unit
  WriteErr := Unit
  Artifacts := Unit
  Definition := Nat

/-- Concrete stage functions on which every stage succeeds: the IR has seven
definitions, the reader program keeps them, the normalization program gains
one, the operation-text program is empty, and resolving an error against the
source text set adds the (numeric) sources value to it. -/
def okStages : StageFns NatTypes where
  project_name _ := "p"
  build_schema _ _ := ()
  build_ir _ _ _ := .ok ⟨7, 3⟩
  from_definitions _ ir := ⟨List.range ir⟩
  validate _ := .ok ()
  apply_transforms p b := ⟨⟨p.definitions⟩, ⟨b :: p.definitions⟩, ⟨[]⟩⟩
  generate_artifacts _ _ := .ok ()
  write_artifacts _ _ _ := .ok ()
  with_sources e s := e + s

/-- Stage functions on which IR construction fails with a two-error batch. -/
def irFailStages : StageFns NatTypes :=
  { okStages with build_ir := fun _ _ _ => .error [0, 1] }

/-- Stage functions on which validation fails with a two-error batch. -/
def validateFailStages : StageFns NatTypes :=
  { okStages with validate := fun _ => .error [0, 1] }

/-- Stage functions on which artifact generation fails. -/
def generateFailStages : StageFns NatTypes :=
  { okStages with generate_artifacts := fun _ _ => .error () }

/-- Stage functions on which artifact writing fails. -/
def writeFailStages : StageFns NatTypes :=
  { okStages with write_artifacts := fun _ _ _ => .error () }

/-- Carrier types whose Schema is itself an `Except` value, so that a schema
builder can report structurally invalid project extensions. -/
@[reducible] def SchemaErrTypes : PipelineTypes :=
  { NatTypes with Schema := Except Unit Unit }

/-- Concrete stage functions whose schema builder reports invalid project
extensions (an `Except.error` schema value); every later stage ignores the
schema and succeeds. -/
def schemaFailStages : StageFns SchemaErrTypes where
  project_name _ := "p"
  build_schema _ _ := .error ()
  build_ir _ _ _ := .ok ⟨7, 3⟩
  from_definitions _ ir := ⟨List.range ir⟩
  validate _ := .ok ()
  apply_transforms p b := ⟨⟨p.definitions⟩, ⟨b :: p.definitions⟩, ⟨[]⟩⟩
  generate_artifacts _ _ := .ok ()
  write_artifacts _ _ _ := .ok ()
  with_sources e s := e + s

example :
    (build_project irFailStages () () () () 5).2 =
      .error (.ValidationErrors [5, 6]) := rfl

example :
    (build_project okStages () () () () 5).2 = .ok () := rfl

example :
    stagesRun (build_project validateFailStages () () () () 5).1 =
      [.buildSchema, .buildIR, .buildProgram, .validate] := rfl

example :
    printedLines (build_project okStages () () () () 5).1 =
      ["[p] documents: 7 reader, 8 normalization, 0 operation"] := rfl

/-- C1: `build_project` runs the stages in the fixed order schema
construction, IR construction, program construction, validation, transform
fan-out, artifact generation, artifact writing — the stages that run always
form a prefix of `fullStageOrder` — and for every input on which a stage
fails, no stage after the failing one runs for that project. -/
theorem c1_stage_order {T : PipelineTypes} (S : StageFns T)
    (compiler_state : T.CompilerState) (config : T.Config)
    (project_config : T.ConfigProject) (ast_sets : T.AstSets)
    (sources : T.Sources) :
    (∃ k, stagesRun (build_project S compiler_state config project_config
        ast_sets sources).1 = fullStageOrder.take k) ∧
    (∀ vs,
      S.build_ir project_config
        (S.build_schema compiler_state project_config) ast_sets = .error vs →
      stagesRun (build_project S compiler_state config project_config
        ast_sets sources).1 = fullStageOrder.take 2) ∧
    (∀ ir bfn vs,
      S.build_ir project_config
        (S.build_schema compiler_state project_config) ast_sets =
        .ok ⟨ir, bfn⟩ →
      S.validate (S.from_definitions
        (S.build_schema compiler_state project_config) ir) = .error vs →
      stagesRun (build_project S compiler_state config project_config
        ast_sets sources).1 = fullStageOrder.take 4) ∧
    (∀ ir bfn g,
      S.build_ir project_config
        (S.build_schema compiler_state project_config) ast_sets =
        .ok ⟨ir, bfn⟩ →
      S.validate (S.from_definitions
        (S.build_schema compiler_state project_config) ir) = .ok () →
      S.generate_artifacts project_config
        (S.apply_transforms
          (S.from_definitions
            (S.build_schema compiler_state project_config) ir) bfn) =
        .error g →
      stagesRun (build_project S compiler_state config project_config
        ast_sets sources).1 = fullStageOrder.take 6) ∧
    (∀ ir bfn a w,
      S.build_ir project_config
        (S.build_schema compiler_state project_config) ast_sets =
        .ok ⟨ir, bfn⟩ →
      S.validate (S.from_definitions
        (S.build_schema compiler_state project_config) ir) = .ok () →
      S.generate_artifacts project_config
        (S.apply_transforms
          (S.from_definitions
            (S.build_schema compiler_state project_config) ir) bfn) =
        .ok a →
      S.write_artifacts config project_config a = .error w →
      stagesRun (build_project S compiler_state config project_config
        ast_sets sources).1 = fullStageOrder) ∧
    ((build_project S compiler_state config project_config
        ast_sets sources).2 = .ok () →
      stagesRun (build_project S compiler_state config project_config
        ast_sets sources).1 = fullStageOrder) := by
  refine ⟨?_, ?_, ?_, ?_, ?_, ?_⟩
  · rcases build_project_cases S compiler_state config project_config ast_sets
      with ⟨vs, h1⟩ | ⟨ir, bfn, vs, h1, h2⟩ | ⟨ir, bfn, g, h1, h2, h3⟩ |
        ⟨ir, bfn, a, w, h1, h2, h3, h4⟩ | ⟨ir, bfn, a, h1, h2, h3, h4⟩
    · refine ⟨2, ?_⟩
      rw [build_project_eq_of_ir_error S compiler_state config
        project_config ast_sets sources vs h1]
      rfl
    · refine ⟨4, ?_⟩
      rw [build_project_eq_of_validate_error S compiler_state
        config project_config ast_sets sources ir bfn vs h1 h2]
      rfl
    · refine ⟨6, ?_⟩
      rw [build_project_eq_of_generate_error S compiler_state
        config project_config ast_sets sources ir bfn g h1 h2 h3]
      rfl
    · refine ⟨7, ?_⟩
      rw [build_project_eq_of_write_error S compiler_state
        config project_config ast_sets sources ir bfn a w h1 h2 h3 h4]
      rfl
    · refine ⟨7, ?_⟩
      rw [build_project_eq_of_success S compiler_state
        config project_config ast_sets sources ir bfn a h1 h2 h3 h4]
      rfl
  · intro vs h1
    rw [build_project_eq_of_ir_error S compiler_state config
      project_config ast_sets sources vs h1]
    rfl
  · intro ir bfn vs h1 h2
    rw [build_project_eq_of_validate_error S compiler_state config
      project_config ast_sets sources ir bfn vs h1 h2]
    rfl
  · intro ir bfn g h1 h2 h3
    rw [build_project_eq_of_generate_error S compiler_state config
      project_config ast_sets sources ir bfn g h1 h2 h3]
    rfl
  · intro ir bfn a w h1 h2 h3 h4
    rw [build_project_eq_of_write_error S compiler_state config
      project_config ast_sets sources ir bfn a w h1 h2 h3 h4]
    rfl
  · intro h
    rcases build_project_cases S compiler_state config project_config ast_sets
      with ⟨vs, h1⟩ | ⟨ir, bfn, vs, h1, h2⟩ | ⟨ir, bfn, g, h1, h2, h3⟩ |
        ⟨ir, bfn, a, w, h1, h2, h3, h4⟩ | ⟨ir, bfn, a, h1, h2, h3, h4⟩
    · rw [build_project_eq_of_ir_error S compiler_state config
        project_config ast_sets sources vs h1] at h
      simp at h
    · rw [build_project_eq_of_validate_error S compiler_state config
        project_config ast_sets sources ir bfn vs h1 h2] at h
      simp at h
    · rw [build_project_eq_of_generate_error S compiler_state config
        project_config ast_sets sources ir bfn g h1 h2 h3] at h
      simp at h
    · rw [build_project_eq_of_write_error S compiler_state config
        project_config ast_sets sources ir bfn a w h1 h2 h3 h4] at h
      simp at h
    · rw [build_project_eq_of_success S compiler_state config
        project_config ast_sets sources ir bfn a h1 h2 h3 h4]
      rfl

theorem c1_stage_order_witness :
    stagesRun (build_project okStages () () () () 0).1 = fullStageOrder ∧
    stagesRun (build_project irFailStages () () () () 0).1 =
      fullStageOrder.take 2 :=
  ⟨(c1_stage_order okStages () () () () 0).2.2.2.2.2 rfl,
   (c1_stage_order irFailStages () () () () 0).2.1 [0, 1] rfl⟩

/-- C2: if artifact generation fails, `build_project` returns exactly that
failure as an `ArtifactGenerationError` and the artifact-writing stage never
runs, so no artifacts are written for that project. -/
theorem c2_generate_error_no_write {T : PipelineTypes} (S : StageFns T)
    (compiler_state : T.CompilerState) (config : T.Config)
    (project_config : T.ConfigProject) (ast_sets : T.AstSets)
    (sources : T.Sources) (ir : T.IR) (bfn : T.BaseFragmentNames)
    (g : T.GenErr)
    (h1 : S.build_ir project_config
        (S.build_schema compiler_state project_config) ast_sets =
        .ok ⟨ir, bfn⟩)
    (h2 : S.validate (S.from_definitions
        (S.build_schema compiler_state project_config) ir) = .ok ())
    (h3 : S.generate_artifacts project_config
        (S.apply_transforms
          (S.from_definitions
            (S.build_schema compiler_state project_config) ir) bfn) =
        .error g) :
    (build_project S compiler_state config project_config
        ast_sets sources).2 = .error (.ArtifactGenerationError g) ∧
    StageName.writeArtifacts ∉
      stagesRun (build_project S compiler_state config project_config
        ast_sets sources).1 := by
  rw [build_project_eq_of_generate_error S compiler_state config
    project_config ast_sets sources ir bfn g h1 h2 h3]
  refine ⟨rfl, ?_⟩
  intro hmem
  simp [stagesRun, timed] at hmem

theorem c2_generate_error_no_write_witness :
    (build_project generateFailStages () () () () 0).2 =
      .error (.ArtifactGenerationError ()) ∧
    StageName.writeArtifacts ∉
      stagesRun (build_project generateFailStages () () () () 0).1 :=
  c2_generate_error_no_write generateFailStages () () () () 0 7 3 ()
    rfl rfl rfl

/-- C3: if the validator returns a non-empty batch of validation errors, the
build fails with the whole batch resolved in one `ValidationErrors` outcome
and the transform fan-out never runs. -/
theorem c3_validation_batch_stops_pipeline {T : PipelineTypes} (S : StageFns T)
    (compiler_state : T.CompilerState) (config : T.Config)
    (project_config : T.ConfigProject) (ast_sets : T.AstSets)
    (sources : T.Sources) (ir : T.IR) (bfn : T.BaseFragmentNames)
    (vs : List T.ValidationError)
    (h1 : S.build_ir project_config
        (S.build_schema compiler_state project_config) ast_sets =
        .ok ⟨ir, bfn⟩)
    (h2 : S.validate (S.from_definitions
        (S.build_schema compiler_state project_config) ir) = .error vs)
    (hne : vs ≠ []) :
    (build_project S compiler_state config project_config
        ast_sets sources).2 =
      .error (.ValidationErrors (vs.map fun e => S.with_sources e sources)) ∧
    StageName.applyTransforms ∉
      stagesRun (build_project S compiler_state config project_config
        ast_sets sources).1 := by
  rw [build_project_eq_of_validate_error S compiler_state config
    project_config ast_sets sources ir bfn vs h1 h2]
  refine ⟨rfl, ?_⟩
  intro hmem
  simp [stagesRun, timed] at hmem

theorem c3_validation_batch_stops_pipeline_witness :
    (build_project validateFailStages () () () () 5).2 =
      .error (.ValidationErrors [5, 6]) ∧
    StageName.applyTransforms ∉
      stagesRun (build_project validateFailStages () () () () 5).1 :=
  c3_validation_batch_stops_pipeline validateFailStages () () () () 5 7 3
    [0, 1] rfl rfl (by decide)

/-- C4: every `ValidationErrors` failure `build_project` returns consists
exactly of a batch of stage-produced errors (from IR construction or from
validation) each resolved by `with_sources` against the source text set. -/
theorem c4_returned_validation_errors_resolved {T : PipelineTypes}
    (S : StageFns T)
    (compiler_state : T.CompilerState) (config : T.Config)
    (project_config : T.ConfigProject) (ast_sets : T.AstSets)
    (sources : T.Sources) (es : List T.ResolvedValidationError)
    (h : (build_project S compiler_state config project_config
        ast_sets sources).2 = .error (.ValidationErrors es)) :
    ∃ vs, es = vs.map (fun e => S.with_sources e sources) ∧
      (S.build_ir project_config
        (S.build_schema compiler_state project_config) ast_sets =
        .error vs ∨
       ∃ ir bfn,
         S.build_ir project_config
           (S.build_schema compiler_state project_config) ast_sets =
           .ok ⟨ir, bfn⟩ ∧
         S.validate (S.from_definitions
           (S.build_schema compiler_state project_config) ir) = .error vs) := by
  rcases build_project_cases S compiler_state config project_config ast_sets
    with ⟨vs, h1⟩ | ⟨ir, bfn, vs, h1, h2⟩ | ⟨ir, bfn, g, h1, h2, h3⟩ |
      ⟨ir, bfn, a, w, h1, h2, h3, h4⟩ | ⟨ir, bfn, a, h1, h2, h3, h4⟩
  · rw [build_project_eq_of_ir_error S compiler_state config
      project_config ast_sets sources vs h1] at h
    simp only at h
    rw [Except.error.injEq, BuildProjectError.ValidationErrors.injEq] at h
    exact ⟨vs, h.symm, Or.inl h1⟩
  · rw [build_project_eq_of_validate_error S compiler_state config
      project_config ast_sets sources ir bfn vs h1 h2] at h
    simp only at h
    rw [Except.error.injEq, BuildProjectError.ValidationErrors.injEq] at h
    exact ⟨vs, h.symm, Or.inr ⟨ir, bfn, h1, h2⟩⟩
  · rw [build_project_eq_of_generate_error S compiler_state config
      project_config ast_sets sources ir bfn g h1 h2 h3] at h
    simp at h
  · rw [build_project_eq_of_write_error S compiler_state config
      project_config ast_sets sources ir bfn a w h1 h2 h3 h4] at h
    simp at h
  · rw [build_project_eq_of_success S compiler_state config
      project_config ast_sets sources ir bfn a h1 h2 h3 h4] at h
    simp at h

theorem c4_returned_validation_errors_resolved_witness :
    ∃ vs, ([5, 6] : List NatTypes.ResolvedValidationError) =
        vs.map (fun e => irFailStages.with_sources e 5) ∧
      (irFailStages.build_ir () (irFailStages.build_schema () ()) () =
        .error vs ∨
       ∃ ir bfn,
         irFailStages.build_ir () (irFailStages.build_schema () ()) () =
           .ok ⟨ir, bfn⟩ ∧
         irFailStages.validate (irFailStages.from_definitions
           (irFailStages.build_schema () ()) ir) = .error vs) :=
  c4_returned_validation_errors_resolved irFailStages () () () () 5 [5, 6] rfl

/-- C5: every stage that runs is wrapped in its own timing span — its timer
start immediately before it and its timer stop immediately after it appear in
the trace — including on failure paths; in particular the generate_artifacts
span is stopped even when `generate_artifacts` returns an error. -/
theorem c5_spans_wrap_stages {T : PipelineTypes} (S : StageFns T)
    (compiler_state : T.CompilerState) (config : T.Config)
    (project_config : T.ConfigProject) (ast_sets : T.AstSets)
    (sources : T.Sources) :
    spansWrapStages (build_project S compiler_state config project_config
        ast_sets sources).1 (S.project_name project_config) ∧
    (∀ ir bfn g,
      S.build_ir project_config
        (S.build_schema compiler_state project_config) ast_sets =
        .ok ⟨ir, bfn⟩ →
      S.validate (S.from_definitions
        (S.build_schema compiler_state project_config) ir) = .ok () →
      S.generate_artifacts project_config
        (S.apply_transforms
          (S.from_definitions
            (S.build_schema compiler_state project_config) ir) bfn) =
        .error g →
      Event.timerStop
          (stageLabel .generateArtifacts ++ " " ++
            S.project_name project_config) ∈
        (build_project S compiler_state config project_config
          ast_sets sources).1) := by
  constructor
  · rcases build_project_cases S compiler_state config project_config ast_sets
      with ⟨vs, h1⟩ | ⟨ir, bfn, vs, h1, h2⟩ | ⟨ir, bfn, g, h1, h2, h3⟩ |
        ⟨ir, bfn, a, w, h1, h2, h3, h4⟩ | ⟨ir, bfn, a, h1, h2, h3, h4⟩
    · rw [build_project_eq_of_ir_error S compiler_state config
        project_config ast_sets sources vs h1]
      exact spansWrapStages_append (spansWrapStages_timed _ _)
        (spansWrapStages_timed _ _)
    · rw [build_project_eq_of_validate_error S compiler_state config
        project_config ast_sets sources ir bfn vs h1 h2]
      exact spansWrapStages_append (spansWrapStages_timed _ _)
        (spansWrapStages_append (spansWrapStages_timed _ _)
          (spansWrapStages_append (spansWrapStages_timed _ _)
            (spansWrapStages_timed _ _)))
    · rw [build_project_eq_of_generate_error S compiler_state config
        project_config ast_sets sources ir bfn g h1 h2 h3]
      exact spansWrapStages_append (spansWrapStages_timed _ _)
        (spansWrapStages_append (spansWrapStages_timed _ _)
          (spansWrapStages_append (spansWrapStages_timed _ _)
            (spansWrapStages_append (spansWrapStages_timed _ _)
              (spansWrapStages_append (spansWrapStages_timed _ _)
                (spansWrapStages_timed _ _)))))
    · rw [build_project_eq_of_write_error S compiler_state config
        project_config ast_sets sources ir bfn a w h1 h2 h3 h4]
      exact spansWrapStages_append (spansWrapStages_timed _ _)
        (spansWrapStages_append (spansWrapStages_timed _ _)
          (spansWrapStages_append (spansWrapStages_timed _ _)
            (spansWrapStages_append (spansWrapStages_timed _ _)
              (spansWrapStages_append (spansWrapStages_timed _ _)
                (spansWrapStages_append (spansWrapStages_timed _ _)
                  (spansWrapStages_timed _ _))))))
    · rw [build_project_eq_of_success S compiler_state config
        project_config ast_sets sources ir bfn a h1 h2 h3 h4]
      exact spansWrapStages_append (spansWrapStages_timed _ _)
        (spansWrapStages_append (spansWrapStages_timed _ _)
          (spansWrapStages_append (spansWrapStages_timed _ _)
            (spansWrapStages_append (spansWrapStages_timed _ _)
              (spansWrapStages_append (spansWrapStages_timed _ _)
                (spansWrapStages_append (spansWrapStages_timed _ _)
                  (spansWrapStages_append (spansWrapStages_timed _ _)
                    (spansWrapStages_printLine _ _)))))))
  · intro ir bfn g h1 h2 h3
    rw [build_project_eq_of_generate_error S compiler_state config
      project_config ast_sets sources ir bfn g h1 h2 h3]
    simp [timed]

theorem c5_spans_wrap_stages_witness :
    Event.timerStop (stageLabel .generateArtifacts ++ " " ++ "p") ∈
      (build_project generateFailStages () () () () 0).1 ∧
    ∃ l r, (build_project irFailStages () () () () 0).1 =
      l ++ (timed .buildIR "p" ++ r) :=
  ⟨(c5_spans_wrap_stages generateFailStages () () () () 0).2 7 3 ()
      rfl rfl rfl,
   (c5_spans_wrap_stages irFailStages () () () () 0).1 .buildIR (by decide)⟩

/-- `build_project` never returns a `SchemaBuildError`, on any input
whatsoever — the driver has no error path at the schema stage. -/
theorem build_project_no_schema_build_error :
    ∀ (T : PipelineTypes) (S : StageFns T) (compiler_state : T.CompilerState)
      (config : T.Config) (project_config : T.ConfigProject)
      (ast_sets : T.AstSets) (sources : T.Sources) (e : T.SchemaErr),
      (build_project S compiler_state config project_config
          ast_sets sources).2 ≠
        Except.error (BuildProjectError.SchemaBuildError e) := by
  intro T S compiler_state config project_config ast_sets sources e h
  rcases build_project_cases S compiler_state config project_config ast_sets
    with ⟨vs, h1⟩ | ⟨ir, bfn, vs, h1, h2⟩ | ⟨ir, bfn, g, h1, h2, h3⟩ |
      ⟨ir, bfn, a, w, h1, h2, h3, h4⟩ | ⟨ir, bfn, a, h1, h2, h3, h4⟩
  · rw [build_project_eq_of_ir_error S compiler_state config
      project_config ast_sets sources vs h1] at h
    simp at h
  · rw [build_project_eq_of_validate_error S compiler_state config
      project_config ast_sets sources ir bfn vs h1 h2] at h
    simp at h
  · rw [build_project_eq_of_generate_error S compiler_state config
      project_config ast_sets sources ir bfn g h1 h2 h3] at h
    simp at h
  · rw [build_project_eq_of_write_error S compiler_state config
      project_config ast_sets sources ir bfn a w h1 h2 h3 h4] at h
    simp at h
  · rw [build_project_eq_of_success S compiler_state config
      project_config ast_sets sources ir bfn a h1 h2 h3 h4] at h
    simp at h

/-- C6 counterexample: a concrete input on which the schema builder reports
structurally invalid project extensions (an errored schema value), yet
`build_project` does not fail with a `SchemaBuildError` — the driver has no
error path at the schema stage, threads the errored schema into the later
stages, and here even returns success. -/
theorem c6_counterexample :
    schemaFailStages.build_schema () () = Except.error () ∧
    outcomeKind (build_project schemaFailStages () () () () 0).2 ≠
      some FailureKind.schemaBuild ∧
    (build_project schemaFailStages () () () () 0).2 = Except.ok () :=
  ⟨rfl, by decide, rfl⟩

/-- C6 amended: the driver invokes schema construction unconditionally and
treats it as infallible — the schema stage always runs, and every failure
`build_project` returns is a `ValidationErrors`, `ArtifactGenerationError`
or `ArtifactWriteError`, never a `SchemaBuildError`. -/
theorem c6_schema_stage_infallible {T : PipelineTypes} (S : StageFns T)
    (compiler_state : T.CompilerState) (config : T.Config)
    (project_config : T.ConfigProject) (ast_sets : T.AstSets)
    (sources : T.Sources) :
    StageName.buildSchema ∈
      stagesRun (build_project S compiler_state config project_config
        ast_sets sources).1 ∧
    (∀ err,
      (build_project S compiler_state config project_config
          ast_sets sources).2 = .error err →
      (∃ es, err = BuildProjectError.ValidationErrors es) ∨
      (∃ g, err = BuildProjectError.ArtifactGenerationError g) ∨
      (∃ w, err = BuildProjectError.ArtifactWriteError w)) := by
  constructor
  · rcases build_project_cases S compiler_state config project_config ast_sets
      with ⟨vs, h1⟩ | ⟨ir, bfn, vs, h1, h2⟩ | ⟨ir, bfn, g, h1, h2, h3⟩ |
        ⟨ir, bfn, a, w, h1, h2, h3, h4⟩ | ⟨ir, bfn, a, h1, h2, h3, h4⟩
    · rw [build_project_eq_of_ir_error S compiler_state config
        project_config ast_sets sources vs h1]
      exact List.Mem.head _
    · rw [build_project_eq_of_validate_error S compiler_state config
        project_config ast_sets sources ir bfn vs h1 h2]
      exact List.Mem.head _
    · rw [build_project_eq_of_generate_error S compiler_state config
        project_config ast_sets sources ir bfn g h1 h2 h3]
      exact List.Mem.head _
    · rw [build_project_eq_of_write_error S compiler_state config
        project_config ast_sets sources ir bfn a w h1 h2 h3 h4]
      exact List.Mem.head _
    · rw [build_project_eq_of_success S compiler_state config
        project_config ast_sets sources ir bfn a h1 h2 h3 h4]
      exact List.Mem.head _
  · intro err h
    rcases build_project_cases S compiler_state config project_config ast_sets
      with ⟨vs, h1⟩ | ⟨ir, bfn, vs, h1, h2⟩ | ⟨ir, bfn, g, h1, h2, h3⟩ |
        ⟨ir, bfn, a, w, h1, h2, h3, h4⟩ | ⟨ir, bfn, a, h1, h2, h3, h4⟩
    · rw [build_project_eq_of_ir_error S compiler_state config
        project_config ast_sets sources vs h1] at h
      simp only at h
      rw [Except.error.injEq] at h
      exact Or.inl ⟨_, h.symm⟩
    · rw [build_project_eq_of_validate_error S compiler_state config
        project_config ast_sets sources ir bfn vs h1 h2] at h
      simp only at h
      rw [Except.error.injEq] at h
      exact Or.inl ⟨_, h.symm⟩
    · rw [build_project_eq_of_generate_error S compiler_state config
        project_config ast_sets sources ir bfn g h1 h2 h3] at h
      simp only at h
      rw [Except.error.injEq] at h
      exact Or.inr (Or.inl ⟨g, h.symm⟩)
    · rw [build_project_eq_of_write_error S compiler_state config
        project_config ast_sets sources ir bfn a w h1 h2 h3 h4] at h
      simp only at h
      rw [Except.error.injEq] at h
      exact Or.inr (Or.inr ⟨w, h.symm⟩)
    · rw [build_project_eq_of_success S compiler_state config
        project_config ast_sets sources ir bfn a h1 h2 h3 h4] at h
      simp at h

theorem c6_schema_stage_infallible_witness :
    StageName.buildSchema ∈
      stagesRun (build_project irFailStages () () () () 5).1 ∧
    ((∃ es, BuildProjectError.ValidationErrors (T := NatTypes) [5, 6] =
        BuildProjectError.ValidationErrors es) ∨
     (∃ g, BuildProjectError.ValidationErrors (T := NatTypes) [5, 6] =
        BuildProjectError.ArtifactGenerationError g) ∨
     (∃ w, BuildProjectError.ValidationErrors (T := NatTypes) [5, 6] =
        BuildProjectError.ArtifactWriteError w)) :=
  ⟨(c6_schema_stage_infallible irFailStages () () () () 5).1,
   (c6_schema_stage_infallible irFailStages () () () () 5).2
     (.ValidationErrors [5, 6]) rfl⟩

/-- C7 counterexample: an IR-stage failure and a validation-stage failure can
return the exact same `BuildProjectError` value, even though different stages
ran — the returned error does not identify whether the IR stage or the
validation stage failed. -/
theorem c7_counterexample :
    (build_project irFailStages () () () () 5).2 =
      (build_project validateFailStages () () () () 5).2 ∧
    stagesRun (build_project irFailStages () () () () 5).1 ≠
      stagesRun (build_project validateFailStages () () () () 5).1 :=
  ⟨rfl, by decide⟩

/-- C7 amended: the returned error identifies the failing stage up to
category — `ArtifactGenerationError` exactly when generation failed (six
stages ran), `ArtifactWriteError` exactly when writing failed (all seven
ran), and `ValidationErrors` when either IR construction (two stages ran) or
validation (four stages ran) failed, the latter two being indistinguishable
from the error alone. -/
theorem c7_error_identifies_stage_category {T : PipelineTypes}
    (S : StageFns T)
    (compiler_state : T.CompilerState) (config : T.Config)
    (project_config : T.ConfigProject) (ast_sets : T.AstSets)
    (sources : T.Sources) :
    (∀ g, (build_project S compiler_state config project_config
        ast_sets sources).2 = .error (.ArtifactGenerationError g) →
      stagesRun (build_project S compiler_state config project_config
        ast_sets sources).1 = fullStageOrder.take 6) ∧
    (∀ w, (build_project S compiler_state config project_config
        ast_sets sources).2 = .error (.ArtifactWriteError w) →
      stagesRun (build_project S compiler_state config project_config
        ast_sets sources).1 = fullStageOrder) ∧
    (∀ es, (build_project S compiler_state config project_config
        ast_sets sources).2 = .error (.ValidationErrors es) →
      stagesRun (build_project S compiler_state config project_config
        ast_sets sources).1 = fullStageOrder.take 2 ∨
      stagesRun (build_project S compiler_state config project_config
        ast_sets sources).1 = fullStageOrder.take 4) := by
  refine ⟨?_, ?_, ?_⟩ <;> intro x h <;>
    rcases build_project_cases S compiler_state config project_config ast_sets
      with ⟨vs, h1⟩ | ⟨ir, bfn, vs, h1, h2⟩ | ⟨ir, bfn, g, h1, h2, h3⟩ |
        ⟨ir, bfn, a, w, h1, h2, h3, h4⟩ | ⟨ir, bfn, a, h1, h2, h3, h4⟩
  · rw [build_project_eq_of_ir_error S compiler_state config
      project_config ast_sets sources vs h1] at h
    simp at h
  · rw [build_project_eq_of_validate_error S compiler_state config
      project_config ast_sets sources ir bfn vs h1 h2] at h
    simp at h
  · rw [build_project_eq_of_generate_error S compiler_state config
      project_config ast_sets sources ir bfn g h1 h2 h3]
    rfl
  · rw [build_project_eq_of_write_error S compiler_state config
      project_config ast_sets sources ir bfn a w h1 h2 h3 h4] at h
    simp at h
  · rw [build_project_eq_of_success S compiler_state config
      project_config ast_sets sources ir bfn a h1 h2 h3 h4] at h
    simp at h
  · rw [build_project_eq_of_ir_error S compiler_state config
      project_config ast_sets sources vs h1] at h
    simp at h
  · rw [build_project_eq_of_validate_error S compiler_state config
      project_config ast_sets sources ir bfn vs h1 h2] at h
    simp at h
  · rw [build_project_eq_of_generate_error S compiler_state config
      project_config ast_sets sources ir bfn g h1 h2 h3] at h
    simp at h
  · rw [build_project_eq_of_write_error S compiler_state config
      project_config ast_sets sources ir bfn a w h1 h2 h3 h4]
    rfl
  · rw [build_project_eq_of_success S compiler_state config
      project_config ast_sets sources ir bfn a h1 h2 h3 h4] at h
    simp at h
  · refine Or.inl ?_
    rw [build_project_eq_of_ir_error S compiler_state config
      project_config ast_sets sources vs h1]
    rfl
  · refine Or.inr ?_
    rw [build_project_eq_of_validate_error S compiler_state config
      project_config ast_sets sources ir bfn vs h1 h2]
    rfl
  · rw [build_project_eq_of_generate_error S compiler_state config
      project_config ast_sets sources ir bfn g h1 h2 h3] at h
    simp at h
  · rw [build_project_eq_of_write_error S compiler_state config
      project_config ast_sets sources ir bfn a w h1 h2 h3 h4] at h
    simp at h
  · rw [build_project_eq_of_success S compiler_state config
      project_config ast_sets sources ir bfn a h1 h2 h3 h4] at h
    simp at h

theorem c7_error_identifies_stage_category_witness :
    stagesRun (build_project generateFailStages () () () () 0).1 =
      fullStageOrder.take 6 :=
  (c7_error_identifies_stage_category generateFailStages () () () () 0).1
    () rfl

/-- C8: on full success `build_project` prints exactly one summary line
reporting the document count of each of the three target programs (reader,
normalization, operation text) and returns success; on any failure no line is
printed. -/
theorem c8_summary_only_on_success {T : PipelineTypes} (S : StageFns T)
    (compiler_state : T.CompilerState) (config : T.Config)
    (project_config : T.ConfigProject) (ast_sets : T.AstSets)
    (sources : T.Sources) :
    (∀ ir bfn a,
      S.build_ir project_config
        (S.build_schema compiler_state project_config) ast_sets =
        .ok ⟨ir, bfn⟩ →
      S.validate (S.from_definitions
        (S.build_schema compiler_state project_config) ir) = .ok () →
      S.generate_artifacts project_config
        (S.apply_transforms
          (S.from_definitions
            (S.build_schema compiler_state project_config) ir) bfn) =
        .ok a →
      S.write_artifacts config project_config a = .ok () →
      printedLines (build_project S compiler_state config project_config
          ast_sets sources).1 =
        [summaryLine (S.project_name project_config)
          (S.apply_transforms
            (S.from_definitions
              (S.build_schema compiler_state project_config) ir) bfn)] ∧
      (build_project S compiler_state config project_config
          ast_sets sources).2 = .ok ()) ∧
    (∀ err,
      (build_project S compiler_state config project_config
          ast_sets sources).2 = .error err →
      printedLines (build_project S compiler_state config project_config
          ast_sets sources).1 = []) := by
  constructor
  · intro ir bfn a h1 h2 h3 h4
    rw [build_project_eq_of_success S compiler_state config
      project_config ast_sets sources ir bfn a h1 h2 h3 h4]
    exact ⟨rfl, rfl⟩
  · intro err h
    rcases build_project_cases S compiler_state config project_config ast_sets
      with ⟨vs, h1⟩ | ⟨ir, bfn, vs, h1, h2⟩ | ⟨ir, bfn, g, h1, h2, h3⟩ |
        ⟨ir, bfn, a, w, h1, h2, h3, h4⟩ | ⟨ir, bfn, a, h1, h2, h3, h4⟩
    · rw [build_project_eq_of_ir_error S compiler_state config
        project_config ast_sets sources vs h1]
      rfl
    · rw [build_project_eq_of_validate_error S compiler_state config
        project_config ast_sets sources ir bfn vs h1 h2]
      rfl
    · rw [build_project_eq_of_generate_error S compiler_state config
        project_config ast_sets sources ir bfn g h1 h2 h3]
      rfl
    · rw [build_project_eq_of_write_error S compiler_state config
        project_config ast_sets sources ir bfn a w h1 h2 h3 h4]
      rfl
    · rw [build_project_eq_of_success S compiler_state config
        project_config ast_sets sources ir bfn a h1 h2 h3 h4] at h
      simp at h

theorem c8_summary_only_on_success_witness :
    printedLines (build_project okStages () () () () 0).1 =
      ["[p] documents: 7 reader, 8 normalization, 0 operation"] ∧
    printedLines (build_project irFailStages () () () () 0).1 = [] :=
  ⟨((c8_summary_only_on_success okStages () () () () 0).1 7 3 ()
      rfl rfl rfl rfl).1,
   (c8_summary_only_on_success irFailStages () () () () 0).2
     (.ValidationErrors [0, 1]) rfl⟩

/-- C9: the transform fan-out is deterministic — two invocations of
`apply_transforms` on an identical (program, base-fragment-names) pair yield
the same target-program set, with identical definition lists (hence identical
definition sets and relative ordering) for the reader, normalization and
operation-text targets. -/
theorem c9_apply_transforms_deterministic {T : PipelineTypes} (S : StageFns T)
    (p p' : Program T) (b b' : T.BaseFragmentNames)
    (hp : p = p') (hb : b = b') :
    S.apply_transforms p b = S.apply_transforms p' b' ∧
    (S.apply_transforms p b).reader.definitions =
      (S.apply_transforms p' b').reader.definitions ∧
    (S.apply_transforms p b).normalization.definitions =
      (S.apply_transforms p' b').normalization.definitions ∧
    (S.apply_transforms p b).operation_text.definitions =
      (S.apply_transforms p' b').operation_text.definitions := by
  subst hp
  subst hb
  exact ⟨rfl, rfl, rfl, rfl⟩

theorem c9_apply_transforms_deterministic_witness :
    okStages.apply_transforms ⟨[0, 1]⟩ 2 = okStages.apply_transforms ⟨[0, 1]⟩ 2 ∧
    (okStages.apply_transforms ⟨[0, 1]⟩ 2).reader.definitions =
      (okStages.apply_transforms ⟨[0, 1]⟩ 2).reader.definitions ∧
    (okStages.apply_transforms ⟨[0, 1]⟩ 2).normalization.definitions =
      (okStages.apply_transforms ⟨[0, 1]⟩ 2).normalization.definitions ∧
    (okStages.apply_transforms ⟨[0, 1]⟩ 2).operation_text.definitions =
      (okStages.apply_transforms ⟨[0, 1]⟩ 2).operation_text.definitions :=
  c9_apply_transforms_deterministic okStages ⟨[0, 1]⟩ ⟨[0, 1]⟩ 2 2 rfl rfl

/-- C10: the `sources` argument influences only error payloads — two runs
differing only in `sources` emit identical event traces (hence the same
stages, spans and summary), produce outcomes of the same kind (success, or
the same error variant), and succeed on exactly the same inputs. -/
theorem c10_sources_only_affect_error_payload {T : PipelineTypes}
    (S : StageFns T)
    (compiler_state : T.CompilerState) (config : T.Config)
    (project_config : T.ConfigProject) (ast_sets : T.AstSets)
    (sources sources' : T.Sources) :
    (build_project S compiler_state config project_config
        ast_sets sources).1 =
      (build_project S compiler_state config project_config
        ast_sets sources').1 ∧
    outcomeKind (build_project S compiler_state config project_config
        ast_sets sources).2 =
      outcomeKind (build_project S compiler_state config project_config
        ast_sets sources').2 ∧
    ((build_project S compiler_state config project_config
        ast_sets sources).2 = .ok () ↔
      (build_project S compiler_state config project_config
        ast_sets sources').2 = .ok ()) := by
  rcases build_project_cases S compiler_state config project_config ast_sets
    with ⟨vs, h1⟩ | ⟨ir, bfn, vs, h1, h2⟩ | ⟨ir, bfn, g, h1, h2, h3⟩ |
      ⟨ir, bfn, a, w, h1, h2, h3, h4⟩ | ⟨ir, bfn, a, h1, h2, h3, h4⟩
  · rw [build_project_eq_of_ir_error S compiler_state config
      project_config ast_sets sources vs h1,
      build_project_eq_of_ir_error S compiler_state config
      project_config ast_sets sources' vs h1]
    exact ⟨rfl, rfl, by simp⟩
  · rw [build_project_eq_of_validate_error S compiler_state config
      project_config ast_sets sources ir bfn vs h1 h2,
      build_project_eq_of_validate_error S compiler_state config
      project_config ast_sets sources' ir bfn vs h1 h2]
    exact ⟨rfl, rfl, by simp⟩
  · rw [build_project_eq_of_generate_error S compiler_state config
      project_config ast_sets sources ir bfn g h1 h2 h3,
      build_project_eq_of_generate_error S compiler_state config
      project_config ast_sets sources' ir bfn g h1 h2 h3]
    exact ⟨rfl, rfl, by simp⟩
  · rw [build_project_eq_of_write_error S compiler_state config
      project_config ast_sets sources ir bfn a w h1 h2 h3 h4,
      build_project_eq_of_write_error S compiler_state config
      project_config ast_sets sources' ir bfn a w h1 h2 h3 h4]
    exact ⟨rfl, rfl, by simp⟩
  · rw [build_project_eq_of_success S compiler_state config
      project_config ast_sets sources ir bfn a h1 h2 h3 h4,
      build_project_eq_of_success S compiler_state config
      project_config ast_sets sources' ir bfn a h1 h2 h3 h4]
    exact ⟨rfl, rfl, by simp⟩
